import Mathlib

/-!
Verification development for the receipt-scanner repository's local/cloud
synchronization core.

The definitions below are a shallow embedding of the TypeScript/JavaScript
source:
  * `src/services/firebase/firebase-service.ts` — `prepareImageForFirestore`,
    `cleanReceiptForFirestore`, `convertDates`, `saveReceipt`, `updateReceipt`,
    `deleteReceipt`, `getAllReceipts`, `syncLocalReceipts`;
  * the application component holding `handleDeleteReceipt` and
    `processPendingDeletions` (App component).

Modelling conventions:
  * JS `Date` values and Firestore `Timestamp`s are epoch milliseconds (`Int`);
    `convertDates` is the identity on those fields.
  * JS `number` is `Int` (all arithmetic in the modelled paths is integral).
  * Optional TS fields (`field?:`) are `Option`; the JS `x || d` default on a
    string/number is spelled out (`""` and `0` are falsy).
  * The cloud store is a keyed map `String → Option CloudReceipt`; Firestore
    `setDoc` is an upsert, `updateDoc` an overwrite of the listed fields
    (the full cleaned document here), `deleteDoc` a removal.
  * Effects whose outcome depends on the environment (network success of a
    write/delete, the DOM image decode inside `prepareImageForFirestore`,
    connectivity probes, authentication) are oracle parameters; the code's
    `try`/`catch` structure is translated into the corresponding branching.
  * Functions that in the source catch all their own exceptions and return a
    value (`syncLocalReceipts`, `processPendingDeletions`,
    `handleDeleteReceipt`) are total Lean functions whose error branches
    mirror the `catch` blocks.
-/

/-- `ReceiptItem` from `src/types/index.ts`: `unit`, `category`, `totalAmount`
are optional. -/
structure Item where
  id : String
  name : String
  quantity : Int
  price : Int
  unit : Option String
  category : Option String
  totalAmount : Option Int
deriving DecidableEq, Repr

/-- `Receipt` from `src/types/index.ts` (fields relevant to the sync core;
`imageUrl`, `additionalImageUrls`, `taxRate`, `documentType` are dropped by
`cleanReceiptForFirestore` and never read by the synchronization paths). -/
structure Receipt where
  id : String
  storeName : String
  date : Int
  total : Int
  items : List Item
  imageData : String
  additionalImages : Option (List String)
  createdAt : Int
  updatedAt : Int
  currency : Option String
  taxAmount : Option Int
  merchantAddress : Option String
  merchantPhone : Option String
  paymentMethod : Option String
  notes : Option String
  tags : Option (List String)
deriving DecidableEq, Repr

/-- The JS `s || d` default for strings (`""` is falsy). -/
def jsOrS (s d : String) : String := if s = "" then d else s

/-- The JS `n || d` default for numbers (`0` is falsy). -/
def jsOrI (n d : Int) : Int := if n = 0 then d else n

/-- The shape of a document written to the `receipts` collection, as produced
by `cleanReceiptForFirestore` (firebase-service.ts, lines 97-136): every
optional field normalized to an explicit empty value, plus `userId` and the
image bookkeeping fields. -/
structure CloudReceipt where
  id : String
  storeName : String
  date : Int
  total : Int
  items : List Item
  createdAt : Int
  updatedAt : Int
  userId : String
  merchantAddress : String
  merchantPhone : String
  paymentMethod : String
  currency : String
  taxAmount : Int
  notes : String
  tags : List String
  hasMainImage : Bool
  hasAdditionalImages : Bool
  additionalImagesCount : Nat
  imageData : String
  additionalImages : List String
  imageUrl : String
  additionalImageUrls : List String
deriving DecidableEq, Repr

/-- The remote `receipts` collection: a map from document id to document. -/
def CloudDB : Type := String → Option CloudReceipt

/-- Firestore `setDoc` (upsert at a key). -/
def putDoc (m : CloudDB) (k : String) (v : CloudReceipt) : CloudDB :=
  fun k' => if k' = k then some v else m k'

/-- Firestore `deleteDoc`. -/
def removeDoc (m : CloudDB) (k : String) : CloudDB :=
  fun k' => if k' = k then none else m k'

/-- The empty remote collection. -/
def emptyCloud : CloudDB := fun _ => none

/-- The item normalization inside `convertDates(receipt, true)`
(firebase-service.ts, lines 62-72): each item is rebuilt with `|| ''` / `|| 0`
defaults, and `totalAmount` falls back to `price * quantity`. -/
def convertItem (it : Item) : Item :=
  { id := it.id
    name := jsOrS it.name ""
    quantity := jsOrI it.quantity 0
    price := jsOrI it.price 0
    unit := some ((it.unit).getD "")
    category := some ((it.category).getD "")
    totalAmount := some (jsOrI (jsOrI ((it.totalAmount).getD 0) (it.price * it.quantity)) 0) }

/-- `convertDates(receipt, true)` (firebase-service.ts, lines 46-74) on a
cleaned document: the `Date`→`Timestamp` conversions are the identity in the
epoch-milliseconds model, so only the item normalization remains. -/
def convertDatesToFirestore (c : CloudReceipt) : CloudReceipt :=
  { c with items := c.items.map convertItem }

/-- `cleanReceiptForFirestore(receipt, userId)` (firebase-service.ts, lines
97-136). `receipt.date || new Date()` and the timestamp defaults only fire on
absent values; `date`, `createdAt`, `updatedAt` are required fields, and a JS
`Date` object is always truthy, so they are the identity here. -/
def cleanReceiptForFirestore (receipt : Receipt) (userId : String) : CloudReceipt :=
  { id := receipt.id
    storeName := jsOrS receipt.storeName ""
    date := receipt.date
    total := jsOrI receipt.total 0
    items := receipt.items
    createdAt := receipt.createdAt
    updatedAt := receipt.updatedAt
    userId := userId
    merchantAddress := (receipt.merchantAddress).getD ""
    merchantPhone := (receipt.merchantPhone).getD ""
    paymentMethod := (receipt.paymentMethod).getD ""
    currency := (receipt.currency).getD ""
    taxAmount := jsOrI ((receipt.taxAmount).getD 0) 0
    notes := (receipt.notes).getD ""
    tags := (receipt.tags).getD []
    hasMainImage := receipt.imageData ≠ ""
    hasAdditionalImages := ((receipt.additionalImages).getD []).length > 0
    additionalImagesCount := ((receipt.additionalImages).getD []).length
    imageData := receipt.imageData
    additionalImages := (receipt.additionalImages).getD []
    imageUrl := ""
    additionalImageUrls := [] }

/-- JS `String.prototype.startsWith`, computed on the character lists (the
payloads here are ASCII, where JS UTF-16 units and characters coincide). -/
def strStartsWith (s p : String) : Bool := p.data.isPrefixOf s.data

/-- The `imageData.replace(/^data:image\/[a-z]+;base64,/, '')` step of
`prepareImageForFirestore` (firebase-service.ts, line 150): strip a leading
`data:image/<letters>;base64,` header if the string has one, else return the
string unchanged. -/
def stripImageHeader (s : String) : String :=
  if strStartsWith s "data:image/" then
    let rest := s.data.drop 11
    let letters := rest.takeWhile (fun c => 'a' ≤ c ∧ c ≤ 'z')
    if letters.length > 0 ∧ strStartsWith (String.mk (rest.drop letters.length)) ";base64," then
      String.mk ((rest.drop letters.length).drop 8)
    else s
  else s

/-- `prepareImageForFirestore(imageData)` (firebase-service.ts, lines 140-214).
`decodeOk` is whether the DOM `Image` decode succeeds (`img.onload` vs
`img.onerror`); `compress` is the canvas downscale/re-encode result, opaque
here. The size test `sizeInKB > 700` with `sizeInBytes = ceil(len*3/4)` and
`sizeInKB = sizeInBytes/1024` (exact float division by a power of two) is
equivalent to `sizeInBytes > 716800`. On decode failure the code resolves with
the (possibly format-fixed) `imageData` variable; nothing in the modelled path
throws, so the outer `catch` (return `''`) is unreachable. -/
def prepareImageForFirestore (decodeOk : String → Bool) (compress : String → String)
    (imageData : String) : String :=
  if imageData = "" then ""
  else
    let fixed := if strStartsWith imageData "data:image" then imageData
      else "data:image/jpeg;base64," ++ stripImageHeader imageData
    let sizeInBytes := (3 * fixed.length + 3) / 4
    if sizeInBytes > 716800 then
      if decodeOk fixed then compress fixed else fixed
    else fixed

/-- `saveReceipt(receipt)` (firebase-service.ts, lines 304-378), as the
key/document pair handed to `setDoc(doc(db, 'receipts', receipt.id), ...)`:
a missing id is replaced by a fresh uuid (`freshId`); the main image and every
additional image go through `prepareImageForFirestore` (`prep`); then
`cleanReceiptForFirestore` and `convertDates`. Whether the `setDoc` itself
succeeds is decided by the caller's oracle. -/
def saveReceiptKV (uid freshId : String) (prep : String → String)
    (receipt : Receipt) : String × CloudReceipt :=
  let rid := if receipt.id = "" then freshId else receipt.id
  let imageData' := if receipt.imageData ≠ "" then prep receipt.imageData else ""
  let additionalImages' :=
    match receipt.additionalImages with
    | some l => if l.length > 0 then l.map prep else []
    | none => []
  let updatedReceipt := { receipt with
    id := rid
    imageData := imageData'
    additionalImages := some additionalImages' }
  (rid, convertDatesToFirestore (cleanReceiptForFirestore updatedReceipt uid))

/-- The `cleanedReceipt` normalization in the new-record branch of
`syncLocalReceipts` (firebase-service.ts, lines 671-678): a copy of the local
receipt with `merchantPhone`, `merchantAddress`, `paymentMethod`, `notes`,
`tags` defaulted to explicit empty values. -/
def cleanedForSync (r : Receipt) : Receipt :=
  { r with
    merchantPhone := some ((r.merchantPhone).getD "")
    merchantAddress := some ((r.merchantAddress).getD "")
    paymentMethod := some ((r.paymentMethod).getD "")
    notes := some ((r.notes).getD "")
    tags := some ((r.tags).getD []) }

/-- The `minimalReceipt` built when the full save of a new record fails
(firebase-service.ts, lines 691-708): essential fields only, images stripped.
`localReceipt.date || new Date()` and `createdAt/updatedAt || new Date()` are
the identity (required fields; a JS `Date` is always truthy). -/
def minimalReceipt (r : Receipt) : Receipt :=
  { id := r.id
    storeName := jsOrS r.storeName "Unknown Store"
    date := r.date
    total := jsOrI r.total 0
    items := []
    imageData := ""
    additionalImages := some []
    createdAt := r.createdAt
    updatedAt := r.updatedAt
    currency := some ((r.currency).getD "")
    taxAmount := some (jsOrI ((r.taxAmount).getD 0) 0)
    merchantAddress := some ""
    merchantPhone := some ""
    paymentMethod := some ""
    notes := some ""
    tags := some [] }

/-- `updateReceipt(receipt)` (firebase-service.ts, lines 483-506): the document
written by `updateDoc` after the in-place `receipt.updatedAt = new Date()`
restamp (`now`). The restamped receipt itself is returned to the caller's
scope by mutation, which `syncReceiptStep` models explicitly. -/
def updateReceiptDoc (uid : String) (now : Int) (receipt : Receipt) : CloudReceipt :=
  convertDatesToFirestore (cleanReceiptForFirestore { receipt with updatedAt := now } uid)

/-- Counts returned by one reconciliation pass. -/
structure SyncCounts where
  added : Nat
  updated : Nat
  conflicts : Nat
deriving DecidableEq, Repr

/-- The state threaded through the `for (const localReceipt of localReceipts)`
loop of `syncLocalReceipts`: the processed prefix of the local array (whose
elements `updateReceipt` mutates in place), the live cloud collection, and the
counters. -/
structure SyncState where
  locals : List Receipt
  cloud : CloudDB
  counts : SyncCounts

/-- `getAllReceipts()`'s view of the cloud (firebase-service.ts, lines
419-481): only documents whose `userId` matches the caller. The in-memory
date sort is irrelevant to the id-keyed `cloudReceiptsMap`. -/
def visibleSnapshot (uid : String) (cloud : CloudDB) : CloudDB :=
  fun k =>
    match cloud k with
    | some d => if d.userId = uid then some d else none
    | none => none

/-- One iteration of the reconciliation loop (firebase-service.ts, lines
654-756). Oracles: `fullOk` — the Firestore write inside the full
`saveReceipt` succeeds; `minOk` — the write of the minimal retry succeeds;
`updOk` — the `updateDoc` inside `updateReceipt` succeeds (all keyed by the
receipt id).

New-record branch: after a successful full save, the success log at line 719
reads `hasMainImage` and `additionalImageCount`, which are `const`s
block-scoped to the inner `try` (lines 669-684); the reference throws
(`ReferenceError`; `tsc` reports TS2304 on the same names), is caught by the
per-record `catch`, and so the `added++` at line 720 never executes. The only
reachable `added++` is line 712, inside the minimal-retry path. The same
thrown reference also skips line 720 after a successful minimal retry, so the
minimal path counts once, not twice.

Update branch: `updateReceipt` restamps `localReceipt.updatedAt = new Date()`
before the remote write, mutating the caller's array element whether or not
the write then succeeds. -/
def syncReceiptStep (uid freshId : String) (prep : String → String)
    (fullOk minOk updOk : String → Bool) (now : Int) (snapshot : CloudDB)
    (st : SyncState) (localReceipt : Receipt) : SyncState :=
  match snapshot localReceipt.id with
  | none =>
      if fullOk localReceipt.id then
        let kv := saveReceiptKV uid freshId prep (cleanedForSync localReceipt)
        { st with
          locals := st.locals ++ [localReceipt]
          cloud := putDoc st.cloud kv.1 kv.2 }
      else if minOk localReceipt.id then
        let kv := saveReceiptKV uid freshId prep (minimalReceipt localReceipt)
        { st with
          locals := st.locals ++ [localReceipt]
          cloud := putDoc st.cloud kv.1 kv.2
          counts := { st.counts with added := st.counts.added + 1 } }
      else
        { st with locals := st.locals ++ [localReceipt] }
  | some cloudReceipt =>
      if cloudReceipt.updatedAt < localReceipt.updatedAt then
        let mutated := { localReceipt with updatedAt := now }
        if updOk localReceipt.id then
          { locals := st.locals ++ [mutated]
            cloud := putDoc st.cloud mutated.id (updateReceiptDoc uid now localReceipt)
            counts := { st.counts with updated := st.counts.updated + 1 } }
        else
          { st with locals := st.locals ++ [mutated] }
      else if localReceipt.updatedAt < cloudReceipt.updatedAt then
        { st with
          locals := st.locals ++ [localReceipt]
          counts := { st.counts with conflicts := st.counts.conflicts + 1 } }
      else
        { st with locals := st.locals ++ [localReceipt] }

/-- `syncLocalReceipts(localReceipts)` (firebase-service.ts, lines 547-775).

* `authed = false`: the `throw new Error('User not authenticated')` at line
  555 is caught by the function's own top-level `catch`, which returns
  `{added: 0, updated: 0, conflicts: 0}`; no store is touched.
* `online = false`: `testConnectivity()` failed (all three probes threw), and
  the pass returns zero counts at line 643 before fetching or writing.
* `fetchOk = false`: the Firestore query inside `getAllReceipts` threw;
  `getAllReceipts` catches every error and returns `[]` (lines 477-480), so
  the pass proceeds with an empty `cloudReceiptsMap` over the live cloud.
* otherwise the loop above runs over the full local array against the
  snapshot of the caller's visible documents.

The returned `SyncState` carries the local array as left by the pass (with
`updateReceipt`'s in-place restamps), the cloud collection, and the counts;
the persisted local store is never accessed by this function. -/
def syncLocalReceipts (uid freshId : String) (prep : String → String)
    (fullOk minOk updOk : String → Bool) (authed online fetchOk : Bool)
    (now : Int) (localReceipts : List Receipt) (cloud : CloudDB) : SyncState :=
  if authed = false then ⟨localReceipts, cloud, ⟨0, 0, 0⟩⟩
  else if online = false then ⟨localReceipts, cloud, ⟨0, 0, 0⟩⟩
  else
    let snapshot := if fetchOk then visibleSnapshot uid cloud else emptyCloud
    localReceipts.foldl (syncReceiptStep uid freshId prep fullOk minOk updOk now snapshot)
      ⟨[], cloud, ⟨0, 0, 0⟩⟩

/-- What one pass does to a local array element: only the local-newer branch
touches it (the `updateReceipt` in-place restamp); every other branch leaves
it as it was. -/
def stepLocal (snapshot : CloudDB) (now : Int) (r : Receipt) : Receipt :=
  match snapshot r.id with
  | some c => if c.updatedAt < r.updatedAt then { r with updatedAt := now } else r
  | none => r

/-- The (at most one) cloud write one loop iteration performs for a local
record, as a key/document pair. -/
def writeOf (uid freshId : String) (prep : String → String)
    (fullOk minOk updOk : String → Bool) (now : Int) (snapshot : CloudDB)
    (r : Receipt) : Option (String × CloudReceipt) :=
  match snapshot r.id with
  | none =>
      if fullOk r.id then some (saveReceiptKV uid freshId prep (cleanedForSync r))
      else if minOk r.id then some (saveReceiptKV uid freshId prep (minimalReceipt r))
      else none
  | some c =>
      if c.updatedAt < r.updatedAt then
        if updOk r.id then some (r.id, updateReceiptDoc uid now r) else none
      else none

/-- Apply an optional keyed write to the cloud. -/
def applyWrite (w : Option (String × CloudReceipt)) (m : CloudDB) : CloudDB :=
  match w with
  | some kv => putDoc m kv.1 kv.2
  | none => m

/-- A local record that the pass counts in `added`: absent from the snapshot,
full save failed, minimal retry succeeded (the only reachable `added++`). -/
def countsAdded (fullOk minOk : String → Bool) (snapshot : CloudDB) (r : Receipt) : Bool :=
  (snapshot r.id).isNone && !fullOk r.id && minOk r.id

/-- A local record that the pass counts in `updated`: present in the snapshot,
strictly newer locally, remote write succeeded. -/
def countsUpdated (updOk : String → Bool) (snapshot : CloudDB) (r : Receipt) : Bool :=
  match snapshot r.id with
  | some c => decide (c.updatedAt < r.updatedAt) && updOk r.id
  | none => false

/-- A local record that the pass counts in `conflicts`: present in the
snapshot and strictly newer remotely. -/
def countsConflict (snapshot : CloudDB) (r : Receipt) : Bool :=
  match snapshot r.id with
  | some c => decide (r.updatedAt < c.updatedAt)
  | none => false

/-- Failure classes of `firebaseService.deleteReceipt` as distinguished by
`handleDeleteReceipt`'s catch: a detected connectivity failure (the thrown
`Error('No connectivity to Firestore')`) versus anything else. -/
inductive RemoteError
  | connectivity
  | other
deriving DecidableEq, Repr

/-- `firebaseService.deleteReceipt(id)` (firebase-service.ts, lines 508-544):
throws `'User not authenticated'` without auth, probes connectivity with a
single `getDoc` and throws `'No connectivity to Firestore'` when offline,
otherwise attempts `deleteDoc` (`deleteOk` oracle; Firestore `deleteDoc` of a
missing document succeeds). -/
def firebaseDeleteReceipt (authed online deleteOk : Bool) (cloud : CloudDB)
    (id : String) : Except RemoteError CloudDB :=
  if authed = false then Except.error RemoteError.other
  else if online = false then Except.error RemoteError.connectivity
  else if deleteOk then Except.ok (removeDoc cloud id)
  else Except.error RemoteError.other

/-- State touched by the App component's mutation handlers: the React
`receipts` state, the persisted local store (`dbService`), the cloud
collection, the `pendingDeletions` list in `localStorage`, and whether a
cloud-delete warning / a blocking error message has been shown. -/
structure FacadeState where
  receipts : List Receipt
  localStore : List Receipt
  cloud : CloudDB
  pending : List String
  warned : Bool
  errored : Bool

/-- The pending-deletion enqueue inside `handleDeleteReceipt`'s cloud-error
handler: `if (!pendingDeletions.includes(id)) pendingDeletions.push(id)`. -/
def enqueuePendingDeletion (pending : List String) (id : String) : List String :=
  if pending.contains id then pending else pending ++ [id]

/-- `handleDeleteReceipt(id)` (App component): find the receipt (error toast
if absent); delete locally (`localOk` oracle — a local failure is a blocking
error and nothing else happens); update UI state and show success; then, only
if signed in, attempt the cloud delete; on cloud failure show a warning
unless the error message is exactly `'No connectivity to Firestore'`, and
enqueue the id in `pendingDeletions` in every failure case. The cloud failure
never rolls back the local delete. -/
def handleDeleteReceipt (currentUser localOk online deleteOk : Bool)
    (st : FacadeState) (id : String) : FacadeState :=
  match st.receipts.find? (fun r => r.id = id) with
  | none => { st with errored := true }
  | some _ =>
      if localOk = false then { st with errored := true }
      else
        let st1 := { st with
          localStore := st.localStore.filter (fun r => r.id ≠ id)
          receipts := st.receipts.filter (fun r => r.id ≠ id) }
        if currentUser = false then st1
        else
          match firebaseDeleteReceipt true online deleteOk st1.cloud id with
          | Except.ok cloud' => { st1 with cloud := cloud' }
          | Except.error e =>
              { st1 with
                warned := st1.warned || decide (e ≠ RemoteError.connectivity)
                pending := enqueuePendingDeletion st1.pending id }

/-- The `for (const id of pendingDeletions)` loop of `processPendingDeletions`
(App component): attempt the remote delete of each id in order, accumulating
the successes; a failed id is skipped and the loop continues. -/
def drainLoop (delOk : String → Bool) (pending : List String) (cloud : CloudDB) :
    List String × CloudDB :=
  pending.foldl
    (fun acc id => if delOk id then (acc.1 ++ [id], removeDoc acc.2 id) else acc)
    ([], cloud)

/-- `processPendingDeletions()` (App component): runs only with a signed-in
user and a non-empty queue; drains the queue once; rewrites `localStorage`
to the identifiers whose delete failed (only when at least one succeeded —
when none did the list is left as it was, which is the same list); and
returns `undefined` — the succeeded/remaining counts are only logged. The
first component below is the function's returned value, always `none`. -/
def processPendingDeletions (currentUser : Bool) (delOk : String → Bool)
    (pending : List String) (cloud : CloudDB) :
    Option (Nat × Nat) × List String × CloudDB :=
  if currentUser = false then (none, pending, cloud)
  else if pending.length = 0 then (none, pending, cloud)
  else
    let loopResult := drainLoop delOk pending cloud
    let successfulDeletions := loopResult.1
    let pending' :=
      if successfulDeletions.length > 0 then
        pending.filter (fun id => !(successfulDeletions.contains id))
      else pending
    (none, pending', loopResult.2)

/-- Oracle that always succeeds. -/
def allTrue : String → Bool := fun _ => true

/-- Image normalization treated as the identity (no image ever oversized in
the concrete scenarios below, whose `imageData` is empty). -/
def idPrep : String → String := fun s => s

/-- A minimal concrete receipt used by the concrete scenarios. -/
def mkReceipt (i : String) (upd : Int) : Receipt :=
  { id := i
    storeName := "Store"
    date := 0
    total := 7
    items := []
    imageData := ""
    additionalImages := none
    createdAt := 0
    updatedAt := upd
    currency := none
    taxAmount := none
    merchantAddress := none
    merchantPhone := none
    paymentMethod := none
    notes := none
    tags := none }

/-- A concrete cloud document owned by user `"u"`. -/
def cloudDoc (i : String) (upd : Int) : CloudReceipt :=
  convertDatesToFirestore (cleanReceiptForFirestore (mkReceipt i upd) "u")

/-- The spec's concrete scenario (sec. 8): remote has `A @ 5` and `C @ 1`,
both owned by user `"u"`. -/
def cloudC1 : CloudDB := putDoc (putDoc emptyCloud "A" (cloudDoc "A" 5)) "C" (cloudDoc "C" 1)

/-- One automatic pass over the spec's concrete scenario: local `A @ 10` and
`B @ 5`, all remote operations succeeding, pass clock 100. -/
def syncC1 : SyncState :=
  syncLocalReceipts "u" "f" idPrep allTrue allTrue allTrue true true true 100
    [mkReceipt "A" 10, mkReceipt "B" 5] cloudC1

/-- A first pass over a single conflicted record (local `A @ 1`, remote
`A @ 5`), used to examine the second pass. -/
def run1C2 : SyncState :=
  syncLocalReceipts "u" "f" idPrep allTrue allTrue allTrue true true true 50
    [mkReceipt "A" 1] (putDoc emptyCloud "A" (cloudDoc "A" 5))

theorem syncReceiptStep_locals (uid freshId : String) (prep : String → String)
    (fullOk minOk updOk : String → Bool) (now : Int) (snapshot : CloudDB)
    (st : SyncState) (r : Receipt) :
    (syncReceiptStep uid freshId prep fullOk minOk updOk now snapshot st r).locals
      = st.locals ++ [stepLocal snapshot now r] := by
  unfold syncReceiptStep stepLocal
  cases h : snapshot r.id with
  | none => simp only [h]; split <;> simp_all <;> split <;> simp_all
  | some c =>
      simp only [h]
      by_cases h1 : c.updatedAt < r.updatedAt
      · simp only [if_pos h1]; split <;> rfl
      · simp only [if_neg h1]; split <;> rfl

theorem syncReceiptStep_cloud (uid freshId : String) (prep : String → String)
    (fullOk minOk updOk : String → Bool) (now : Int) (snapshot : CloudDB)
    (st : SyncState) (r : Receipt) :
    (syncReceiptStep uid freshId prep fullOk minOk updOk now snapshot st r).cloud
      = applyWrite (writeOf uid freshId prep fullOk minOk updOk now snapshot r) st.cloud := by
  unfold syncReceiptStep writeOf applyWrite
  cases h : snapshot r.id with
  | none => simp only [h]; split <;> simp_all <;> split <;> simp_all
  | some c =>
      simp only [h]
      by_cases h1 : c.updatedAt < r.updatedAt
      · simp only [if_pos h1]; split <;> rfl
      · simp only [if_neg h1]; split <;> rfl

theorem syncReceiptStep_counts (uid freshId : String) (prep : String → String)
    (fullOk minOk updOk : String → Bool) (now : Int) (snapshot : CloudDB)
    (st : SyncState) (r : Receipt) :
    (syncReceiptStep uid freshId prep fullOk minOk updOk now snapshot st r).counts
      = ⟨st.counts.added + (if countsAdded fullOk minOk snapshot r then 1 else 0),
         st.counts.updated + (if countsUpdated updOk snapshot r then 1 else 0),
         st.counts.conflicts + (if countsConflict snapshot r then 1 else 0)⟩ := by
  unfold syncReceiptStep countsAdded countsUpdated countsConflict
  cases h : snapshot r.id with
  | none =>
      simp only [h, Option.isNone_none]
      by_cases h1 : fullOk r.id = true
      · simp [h1]
      · simp only [Bool.not_eq_true] at h1
        by_cases h2 : minOk r.id = true <;> simp [h1, h2]
  | some c =>
      simp only [h]
      by_cases h1 : c.updatedAt < r.updatedAt
      · have h2 : ¬ r.updatedAt < c.updatedAt := by omega
        by_cases h3 : updOk r.id = true <;> simp [h1, h2, h3]
      · by_cases h2 : r.updatedAt < c.updatedAt <;> simp [h1, h2]

theorem sync_foldl_locals (uid freshId : String) (prep : String → String)
    (fullOk minOk updOk : String → Bool) (now : Int) (snapshot : CloudDB)
    (L : List Receipt) (st : SyncState) :
    (L.foldl (syncReceiptStep uid freshId prep fullOk minOk updOk now snapshot) st).locals
      = st.locals ++ L.map (stepLocal snapshot now) := by
  induction L generalizing st with
  | nil => simp
  | cons r L ih =>
      rw [List.foldl_cons, ih, List.map_cons, syncReceiptStep_locals]
      simp

theorem sync_foldl_counts (uid freshId : String) (prep : String → String)
    (fullOk minOk updOk : String → Bool) (now : Int) (snapshot : CloudDB)
    (L : List Receipt) (st : SyncState) :
    (L.foldl (syncReceiptStep uid freshId prep fullOk minOk updOk now snapshot) st).counts
      = ⟨st.counts.added + L.countP (countsAdded fullOk minOk snapshot),
         st.counts.updated + L.countP (countsUpdated updOk snapshot),
         st.counts.conflicts + L.countP (countsConflict snapshot)⟩ := by
  induction L generalizing st with
  | nil => simp [List.countP_nil]
  | cons r L ih =>
      rw [List.foldl_cons, ih, syncReceiptStep_counts]
      simp only [List.countP_cons]
      by_cases h1 : countsAdded fullOk minOk snapshot r = true <;>
        by_cases h2 : countsUpdated updOk snapshot r = true <;>
          by_cases h3 : countsConflict snapshot r = true <;>
            simp [h1, h2, h3] <;> omega

/-- Iterations whose write does not touch the key `k` leave `cloud k`
unchanged. -/
theorem sync_foldl_cloud_frame (uid freshId : String) (prep : String → String)
    (fullOk minOk updOk : String → Bool) (now : Int) (snapshot : CloudDB)
    (L : List Receipt) (st : SyncState) (k : String)
    (hk : ∀ r ∈ L, ∀ kv, writeOf uid freshId prep fullOk minOk updOk now snapshot r = some kv →
      kv.1 ≠ k) :
    (L.foldl (syncReceiptStep uid freshId prep fullOk minOk updOk now snapshot) st).cloud k
      = st.cloud k := by
  induction L generalizing st with
  | nil => rfl
  | cons r L ih =>
      rw [List.foldl_cons]
      rw [ih _ (fun r' hr' => hk r' (List.mem_cons_of_mem _ hr'))]
      rw [syncReceiptStep_cloud]
      cases hw : writeOf uid freshId prep fullOk minOk updOk now snapshot r with
      | none => rfl
      | some kv =>
          have : kv.1 ≠ k := hk r (List.mem_cons_self _ _) kv hw
          simp [applyWrite, putDoc, Ne.symm this]

/-- The key of the write performed for a record with a nonempty id is that
record's id. -/
theorem writeOf_key (uid freshId : String) (prep : String → String)
    (fullOk minOk updOk : String → Bool) (now : Int) (snapshot : CloudDB)
    (r : Receipt) (hid : r.id ≠ "") (kv : String × CloudReceipt)
    (hw : writeOf uid freshId prep fullOk minOk updOk now snapshot r = some kv) :
    kv.1 = r.id := by
  unfold writeOf at hw
  cases h : snapshot r.id with
  | none =>
      simp only [h] at hw
      split at hw
      · injection hw with hw'
        rw [← hw']
        simp [saveReceiptKV, cleanedForSync, hid]
      · split at hw
        · injection hw with hw'
          rw [← hw']
          simp [saveReceiptKV, minimalReceipt, hid]
        · cases hw
  | some c =>
      simp only [h] at hw
      split at hw
      · split at hw
        · injection hw with hw'
          rw [← hw']
        · cases hw
      · cases hw

theorem applyWrite_apply_congr (w : Option (String × CloudReceipt)) (m m' : CloudDB)
    (k : String) (h : m k = m' k) : applyWrite w m k = applyWrite w m' k := by
  cases w with
  | none => exact h
  | some kv =>
      simp only [applyWrite, putDoc]
      split
      · rfl
      · exact h

/-- Under distinct nonempty local ids, the cloud entry at a local record's id
after the whole loop is exactly the effect of that record's own iteration. -/
theorem sync_foldl_cloud_at (uid freshId : String) (prep : String → String)
    (fullOk minOk updOk : String → Bool) (now : Int) (snapshot : CloudDB)
    (L : List Receipt) (st : SyncState) (r : Receipt) (hr : r ∈ L)
    (hid : ∀ r' ∈ L, r'.id ≠ "") (hnd : (L.map Receipt.id).Nodup) :
    (L.foldl (syncReceiptStep uid freshId prep fullOk minOk updOk now snapshot) st).cloud r.id
      = applyWrite (writeOf uid freshId prep fullOk minOk updOk now snapshot r) st.cloud r.id := by
  induction L generalizing st with
  | nil => cases hr
  | cons a L ih =>
      rw [List.map_cons, List.nodup_cons] at hnd
      rcases List.mem_cons.mp hr with rfl | hrL
      · rw [List.foldl_cons]
        rw [sync_foldl_cloud_frame uid freshId prep fullOk minOk updOk now snapshot L _ r.id
          (fun r' hr' kv hkv => by
            have hk := writeOf_key uid freshId prep fullOk minOk updOk now snapshot r'
              (hid r' (List.mem_cons_of_mem _ hr')) kv hkv
            rw [hk]
            intro hEq
            exact hnd.1 (hEq ▸ List.mem_map_of_mem Receipt.id hr'))]
        rw [syncReceiptStep_cloud]
      · have haid : a.id ≠ r.id := by
          intro hEq
          exact hnd.1 (hEq ▸ List.mem_map_of_mem Receipt.id hrL)
        rw [List.foldl_cons]
        rw [ih _ hrL (fun r' h => hid r' (List.mem_cons_of_mem _ h)) hnd.2]
        refine applyWrite_apply_congr _ _ _ _ ?_
        rw [syncReceiptStep_cloud]
        cases hw : writeOf uid freshId prep fullOk minOk updOk now snapshot a with
        | none => rfl
        | some kv =>
            have hk := writeOf_key uid freshId prep fullOk minOk updOk now snapshot a
              (hid a (List.mem_cons_self _ _)) kv hw
            simp [applyWrite, putDoc, hk, Ne.symm haid]

/-- With an authenticated user, a passing connectivity probe and a successful
remote fetch, the pass is the reconciliation loop over the caller's visible
snapshot. -/
theorem syncLocalReceipts_run (uid freshId : String) (prep : String → String)
    (fullOk minOk updOk : String → Bool) (now : Int) (L : List Receipt) (cloud : CloudDB) :
    syncLocalReceipts uid freshId prep fullOk minOk updOk true true true now L cloud
      = L.foldl (syncReceiptStep uid freshId prep fullOk minOk updOk now
          (visibleSnapshot uid cloud)) ⟨[], cloud, ⟨0, 0, 0⟩⟩ := rfl

/-- When the remote fetch fails, `getAllReceipts` returns `[]`, so the same
loop runs against an empty snapshot (over the unchanged live cloud). -/
theorem syncLocalReceipts_run_fetchFail (uid freshId : String) (prep : String → String)
    (fullOk minOk updOk : String → Bool) (now : Int) (L : List Receipt) (cloud : CloudDB) :
    syncLocalReceipts uid freshId prep fullOk minOk updOk true true false now L cloud
      = L.foldl (syncReceiptStep uid freshId prep fullOk minOk updOk now emptyCloud)
          ⟨[], cloud, ⟨0, 0, 0⟩⟩ := rfl

theorem stepLocal_id (snapshot : CloudDB) (now : Int) (r : Receipt) :
    (stepLocal snapshot now r).id = r.id := by
  unfold stepLocal
  cases h : snapshot r.id with
  | none => simp only [h]
  | some c =>
      simp only [h]
      split <;> rfl

theorem stepLocal_updatedAt (snapshot : CloudDB) (now : Int) (r : Receipt) (c : CloudReceipt)
    (h : snapshot r.id = some c) :
    (stepLocal snapshot now r).updatedAt = if c.updatedAt < r.updatedAt then now else r.updatedAt := by
  unfold stepLocal
  simp only [h]
  split <;> simp_all

theorem saveReceiptKV_doc_updatedAt (uid freshId : String) (prep : String → String)
    (r : Receipt) : ((saveReceiptKV uid freshId prep r).2).updatedAt = r.updatedAt := rfl

theorem saveReceiptKV_doc_userId (uid freshId : String) (prep : String → String)
    (r : Receipt) : ((saveReceiptKV uid freshId prep r).2).userId = uid := rfl

theorem cleanedForSync_updatedAt (r : Receipt) : (cleanedForSync r).updatedAt = r.updatedAt := rfl

theorem minimalReceipt_updatedAt (r : Receipt) : (minimalReceipt r).updatedAt = r.updatedAt := rfl

theorem updateReceiptDoc_updatedAt (uid : String) (now : Int) (r : Receipt) :
    (updateReceiptDoc uid now r).updatedAt = now := rfl

theorem updateReceiptDoc_userId (uid : String) (now : Int) (r : Receipt) :
    (updateReceiptDoc uid now r).userId = uid := rfl

theorem visibleSnapshot_some (uid : String) (cloud : CloudDB) (k : String) (c : CloudReceipt)
    (h : visibleSnapshot uid cloud k = some c) : cloud k = some c ∧ c.userId = uid := by
  unfold visibleSnapshot at h
  cases hc : cloud k with
  | none => rw [hc] at h; cases h
  | some d =>
      simp only [hc] at h
      by_cases hu : d.userId = uid
      · rw [if_pos hu] at h
        injection h with h'
        subst h'
        exact ⟨rfl, hu⟩
      · rw [if_neg hu] at h; cases h

theorem drainLoop_foldl_succ (delOk : String → Bool) (pending : List String)
    (acc : List String × CloudDB) :
    (pending.foldl
        (fun acc id => if delOk id then (acc.1 ++ [id], removeDoc acc.2 id) else acc) acc).1
      = acc.1 ++ pending.filter (fun id => delOk id) := by
  induction pending generalizing acc with
  | nil => simp
  | cons a l ih =>
      rw [List.foldl_cons, ih]
      by_cases h : delOk a = true <;> simp [h, List.filter_cons]

theorem drainLoop_succ (delOk : String → Bool) (pending : List String) (cloud : CloudDB) :
    (drainLoop delOk pending cloud).1 = pending.filter (fun id => delOk id) := by
  unfold drainLoop
  rw [drainLoop_foldl_succ]
  simp

theorem drainLoop_foldl_none (delOk : String → Bool) (pending : List String)
    (acc : List String × CloudDB) (k : String) (h : acc.2 k = none) :
    (pending.foldl
        (fun acc id => if delOk id then (acc.1 ++ [id], removeDoc acc.2 id) else acc) acc).2 k
      = none := by
  induction pending generalizing acc with
  | nil => exact h
  | cons a l ih =>
      rw [List.foldl_cons]
      refine ih _ ?_
      by_cases hd : delOk a = true
      · simp only [hd, if_pos]
        unfold removeDoc
        split <;> [rfl; exact h]
      · simp only [hd]
        simpa using h

theorem drainLoop_foldl_removes (delOk : String → Bool) (pending : List String)
    (acc : List String × CloudDB) (k : String) (hk : k ∈ pending) (hd : delOk k = true) :
    (pending.foldl
        (fun acc id => if delOk id then (acc.1 ++ [id], removeDoc acc.2 id) else acc) acc).2 k
      = none := by
  induction pending generalizing acc with
  | nil => cases hk
  | cons a l ih =>
      rw [List.foldl_cons]
      rcases List.mem_cons.mp hk with rfl | hkl
      · rw [if_pos hd]
        refine drainLoop_foldl_none delOk l _ k ?_
        simp [removeDoc]
      · exact ih _ hkl

theorem drainLoop_removes (delOk : String → Bool) (pending : List String) (cloud : CloudDB)
    (k : String) (hk : k ∈ pending) (hd : delOk k = true) :
    (drainLoop delOk pending cloud).2 k = none :=
  drainLoop_foldl_removes delOk pending ([], cloud) k hk hd

/-- C1 (counterexample): on the spec's concrete scenario the pass does not
return `{added: 1, updated: 1, conflicts: 0}` and does not leave remote `A`
with `updatedAt = 10`: `updateReceipt` restamps `updatedAt` with the pass
clock, and the success path of the new-record branch throws on its
out-of-scope log variables before `added++`. -/
theorem C1_concrete_scenario_cex :
    syncC1.counts ≠ ⟨1, 1, 0⟩ ∧
    (syncC1.cloud "A").map CloudReceipt.updatedAt ≠ some 10 := by
  decide

/-- C1 (amended): on the concrete scenario, one pass leaves remote `A` with
`updatedAt` equal to the pass clock (100), uploads `B` in full, leaves remote
`C` and the local absence of `C` untouched, restamps the in-memory local `A`,
and returns `{added: 0, updated: 1, conflicts: 0}` — `B`'s successful upload
is not counted because the success log throws before `added++`. -/
theorem C1_concrete_scenario_amended :
    syncC1.counts = ⟨0, 1, 0⟩ ∧
    (syncC1.cloud "A").map CloudReceipt.updatedAt = some 100 ∧
    syncC1.cloud "B" = some (saveReceiptKV "u" "f" idPrep (cleanedForSync (mkReceipt "B" 5))).2 ∧
    syncC1.cloud "C" = cloudC1 "C" ∧
    (syncC1.locals.map Receipt.id).contains "C" = false ∧
    syncC1.locals = [{ mkReceipt "A" 10 with updatedAt := 100 }, mkReceipt "B" 5] := by
  decide

/-- C2 (counterexample): a conflicted record is counted as a conflict again on
an immediately repeated pass, so the second run is not `{0, 0, 0}`. -/
theorem C2_idempotence_cex :
    (syncLocalReceipts "u" "f" idPrep allTrue allTrue allTrue true true true 60
        run1C2.locals run1C2.cloud).counts = ⟨0, 0, 1⟩ ∧
    (⟨0, 0, 1⟩ : SyncCounts) ≠ (⟨0, 0, 0⟩ : SyncCounts) := by
  decide

/-- C3 (counterexample): local `A @ 10` strictly newer than remote `A @ 5`;
after the pass the remote copy's `updatedAt` is the pass clock (50), not the
local record's 10 — the remote copy does not equal the local copy's
timestamp. -/
theorem C3_monotonic_convergence_cex :
    ((syncLocalReceipts "u" "f" idPrep allTrue allTrue allTrue true true true 50
        [mkReceipt "A" 10] (putDoc emptyCloud "A" (cloudDoc "A" 5))).cloud "A").map
          CloudReceipt.updatedAt = some 50 ∧
    ((syncLocalReceipts "u" "f" idPrep allTrue allTrue allTrue true true true 50
        [mkReceipt "A" 10] (putDoc emptyCloud "A" (cloudDoc "A" 5))).cloud "A").map
          CloudReceipt.updatedAt ≠ some (mkReceipt "A" 10).updatedAt := by
  decide

/-- C4: a new local record (`B`, absent remotely) is uploaded in full by the
pass, but the returned counts are `{0, 0, 0}`: the success log at line 719
references `hasMainImage`/`additionalImageCount`, `const`s block-scoped to the
inner `try` at lines 669-684, so it throws (a TS2304 compile error, a
`ReferenceError` at runtime), is caught by the per-record handler, and the
`added++` at line 720 — like the adjacent `'Successfully added'` log, plainly
the intent — never runs. -/
theorem C4_new_record_added_not_counted :
    (syncLocalReceipts "u" "f" idPrep allTrue allTrue allTrue true true true 100
        [mkReceipt "B" 5] emptyCloud).cloud "B"
      = some (saveReceiptKV "u" "f" idPrep (cleanedForSync (mkReceipt "B" 5))).2 ∧
    (syncLocalReceipts "u" "f" idPrep allTrue allTrue allTrue true true true 100
        [mkReceipt "B" 5] emptyCloud).counts = ⟨0, 0, 0⟩ := by
  decide

/-- C6: when the connectivity probe fails, `syncLocalReceipts` returns the
all-zero outcome immediately; the returned local array and cloud collection
are the inputs (nothing written to either store), and no error escapes (the
function is total and this path returns before any fetch or write —
firebase-service.ts, lines 640-644). -/
theorem C6_probe_failure_silent_skip (uid freshId : String) (prep : String → String)
    (fullOk minOk updOk : String → Bool) (authed fetchOk : Bool) (now : Int)
    (L : List Receipt) (cloud : CloudDB) (online : Bool) (hoff : online = false) :
    syncLocalReceipts uid freshId prep fullOk minOk updOk authed online fetchOk now L cloud
      = ⟨L, cloud, ⟨0, 0, 0⟩⟩ := by
  subst hoff
  cases authed <;> rfl

/-- C6 witness: the probe-failure skip evaluated on a concrete pass. -/
theorem C6_probe_failure_silent_skip_witness :
    (false = false) ∧
    syncLocalReceipts "u" "f" idPrep allTrue allTrue allTrue true false true 0
        [mkReceipt "A" 1] emptyCloud
      = ⟨[mkReceipt "A" 1], emptyCloud, ⟨0, 0, 0⟩⟩ :=
  ⟨rfl, C6_probe_failure_silent_skip "u" "f" idPrep allTrue allTrue allTrue true true 0
    [mkReceipt "A" 1] emptyCloud false rfl⟩

/-- C10 (counterexample): a remote fetch error is not a top-level failure —
`getAllReceipts` swallows it and returns `[]` — so the pass proceeds against
an empty snapshot. Here the full save of the (remotely newer) record fails
and the minimal retry succeeds: the pass overwrites the remote copy with the
minimal record and returns `{added: 1, updated: 0, conflicts: 0}`, not the
all-zero outcome of a pass with no work. -/
theorem C10_total_over_failures_cex :
    (syncLocalReceipts "u" "f" idPrep (fun _ => false) allTrue allTrue true true false 100
        [mkReceipt "A" 1] (putDoc emptyCloud "A" (cloudDoc "A" 5))).counts = ⟨1, 0, 0⟩ ∧
    (syncLocalReceipts "u" "f" idPrep (fun _ => false) allTrue allTrue true true false 100
        [mkReceipt "A" 1] (putDoc emptyCloud "A" (cloudDoc "A" 5))).cloud "A"
      = some (saveReceiptKV "u" "f" idPrep (minimalReceipt (mkReceipt "A" 1))).2 ∧
    (⟨1, 0, 0⟩ : SyncCounts) ≠ (⟨0, 0, 0⟩ : SyncCounts) := by
  decide

/-- C10 (amended): `syncLocalReceipts` always returns (its own top-level catch
maps the unauthenticated throw to the all-zero outcome with nothing written);
a remote fetch error, however, is swallowed inside `getAllReceipts`, so the
pass proceeds as if the remote set were empty instead of returning all-zero
with no work. -/
theorem C10_total_over_failures_amended (uid freshId : String) (prep : String → String)
    (fullOk minOk updOk : String → Bool) (online fetchOk : Bool) (now : Int)
    (L : List Receipt) (cloud : CloudDB) :
    (syncLocalReceipts uid freshId prep fullOk minOk updOk false online fetchOk now L cloud
        = ⟨L, cloud, ⟨0, 0, 0⟩⟩) ∧
    (syncLocalReceipts uid freshId prep fullOk minOk updOk true true false now L cloud
        = L.foldl (syncReceiptStep uid freshId prep fullOk minOk updOk now emptyCloud)
            ⟨[], cloud, ⟨0, 0, 0⟩⟩) :=
  ⟨rfl, rfl⟩

/-- C9 (counterexample): a payload far below the 700 KB ceiling but not
beginning with `data:image` is rewritten to a data-URL
(`data:image/jpeg;base64,...`) rather than returned unchanged. -/
theorem C9_image_normalizer_cex :
    prepareImageForFirestore allTrue idPrep "abc" ≠ "abc" ∧
    prepareImageForFirestore allTrue idPrep "abc" = "data:image/jpeg;base64,abc" := by
  decide

/-- C9 (amended): for payloads already in `data:image` form the claim holds:
a payload within the size ceiling (`ceil(len*3/4) ≤ 716800` bytes, i.e.
`sizeInKB ≤ 700`) is returned unchanged, and an oversized payload whose
decode fails is returned unchanged rather than raising (the function is
total). Payloads not beginning with `data:image` are first rewritten to
data-URL form, so for them "unchanged" fails in both branches. -/
theorem C9_image_normalizer_amended (decodeOk : String → Bool) (compress : String → String)
    (s : String) (hfmt : strStartsWith s "data:image" = true) :
    ((3 * s.length + 3) / 4 ≤ 716800 →
        prepareImageForFirestore decodeOk compress s = s) ∧
    ((3 * s.length + 3) / 4 > 716800 → decodeOk s = false →
        prepareImageForFirestore decodeOk compress s = s) := by
  have hne : s ≠ "" := by
    intro h
    rw [h] at hfmt
    exact absurd hfmt (by decide)
  unfold prepareImageForFirestore
  rw [if_neg hne, if_pos hfmt]
  constructor
  · intro hsize
    rw [if_neg (by omega)]
  · intro hsize hdec
    rw [if_pos (by omega), if_neg (by simp [hdec])]

/-- C9 witness: a small well-formed payload is returned unchanged. -/
theorem C9_image_normalizer_witness :
    (strStartsWith "data:image/png;base64,AA" "data:image" = true) ∧
    ((3 * ("data:image/png;base64,AA").length + 3) / 4 ≤ 716800) ∧
    prepareImageForFirestore allTrue idPrep "data:image/png;base64,AA"
      = "data:image/png;base64,AA" :=
  ⟨by decide, by decide,
    (C9_image_normalizer_amended allTrue idPrep "data:image/png;base64,AA" (by decide)).1
      (by decide)⟩

/-- C5: for a local record strictly older than its remote counterpart, one
pass leaves the remote copy untouched, leaves the in-memory local element
untouched (and the persisted local store is never written by the engine at
all), and counts exactly one conflict for that record: the conflict counter
is the number of conflicted records and this record is one of them. -/
theorem C5_conflict_nondestructive (uid freshId : String) (prep : String → String)
    (fullOk minOk updOk : String → Bool) (now : Int) (L : List Receipt) (cloud : CloudDB)
    (r : Receipt) (c : CloudReceipt) (hr : r ∈ L) (hid : ∀ r' ∈ L, r'.id ≠ "")
    (hnd : (L.map Receipt.id).Nodup) (hc : visibleSnapshot uid cloud r.id = some c)
    (hlt : r.updatedAt < c.updatedAt) :
    (syncLocalReceipts uid freshId prep fullOk minOk updOk true true true now L cloud).cloud r.id
        = cloud r.id ∧
    (syncLocalReceipts uid freshId prep fullOk minOk updOk true true true now L cloud).locals
        = L.map (stepLocal (visibleSnapshot uid cloud) now) ∧
    stepLocal (visibleSnapshot uid cloud) now r = r ∧
    (syncLocalReceipts uid freshId prep fullOk minOk updOk true true true now L cloud).counts.conflicts
        = (L.filter (countsConflict (visibleSnapshot uid cloud))).length ∧
    r ∈ L.filter (countsConflict (visibleSnapshot uid cloud)) := by
  have hnotgt : ¬ c.updatedAt < r.updatedAt := by omega
  have hw : writeOf uid freshId prep fullOk minOk updOk now (visibleSnapshot uid cloud) r
      = none := by
    unfold writeOf
    simp only [hc]
    rw [if_neg hnotgt]
  refine ⟨?_, ?_, ?_, ?_, ?_⟩
  · rw [syncLocalReceipts_run,
      sync_foldl_cloud_at uid freshId prep fullOk minOk updOk now _ L _ r hr hid hnd, hw]
    rfl
  · rw [syncLocalReceipts_run, sync_foldl_locals]
    simp
  · unfold stepLocal
    simp only [hc]
    rw [if_neg hnotgt]
  · rw [syncLocalReceipts_run, sync_foldl_counts]
    simp [List.countP_eq_length_filter]
  · refine List.mem_filter.mpr ⟨hr, ?_⟩
    unfold countsConflict
    simp only [hc]
    exact decide_eq_true hlt

/-- C5 witness: the conflict branch evaluated on a concrete pass (local
`A @ 1`, remote `A @ 5`). -/
theorem C5_conflict_nondestructive_witness :
    (visibleSnapshot "u" (putDoc emptyCloud "A" (cloudDoc "A" 5)) (mkReceipt "A" 1).id
        = some (cloudDoc "A" 5)) ∧
    ((mkReceipt "A" 1).updatedAt < (cloudDoc "A" 5).updatedAt) ∧
    ((syncLocalReceipts "u" "f" idPrep allTrue allTrue allTrue true true true 50
        [mkReceipt "A" 1] (putDoc emptyCloud "A" (cloudDoc "A" 5))).cloud (mkReceipt "A" 1).id
          = (putDoc emptyCloud "A" (cloudDoc "A" 5)) (mkReceipt "A" 1).id ∧
      (syncLocalReceipts "u" "f" idPrep allTrue allTrue allTrue true true true 50
        [mkReceipt "A" 1] (putDoc emptyCloud "A" (cloudDoc "A" 5))).locals
          = [mkReceipt "A" 1].map
              (stepLocal (visibleSnapshot "u" (putDoc emptyCloud "A" (cloudDoc "A" 5))) 50) ∧
      stepLocal (visibleSnapshot "u" (putDoc emptyCloud "A" (cloudDoc "A" 5))) 50
          (mkReceipt "A" 1) = mkReceipt "A" 1 ∧
      (syncLocalReceipts "u" "f" idPrep allTrue allTrue allTrue true true true 50
        [mkReceipt "A" 1] (putDoc emptyCloud "A" (cloudDoc "A" 5))).counts.conflicts
          = ([mkReceipt "A" 1].filter
              (countsConflict (visibleSnapshot "u" (putDoc emptyCloud "A" (cloudDoc "A" 5))))).length ∧
      mkReceipt "A" 1 ∈ [mkReceipt "A" 1].filter
          (countsConflict (visibleSnapshot "u" (putDoc emptyCloud "A" (cloudDoc "A" 5))))) :=
  ⟨by decide, by decide,
    C5_conflict_nondestructive "u" "f" idPrep allTrue allTrue allTrue 50
      [mkReceipt "A" 1] (putDoc emptyCloud "A" (cloudDoc "A" 5))
      (mkReceipt "A" 1) (cloudDoc "A" 5) (by decide) (by decide) (by decide)
      (by decide) (by decide)⟩

/-- C3 (amended): for a local record strictly newer than its remote
counterpart, a successful update leaves the remote copy equal to the cloud
normalization of the local record with its `updatedAt` restamped to the
pass clock (`updateReceipt` performs `receipt.updatedAt = new Date()` before
writing), and the in-memory local element is restamped the same way; the
persisted local copy keeps its original timestamp, so the remote copy matches
the local record's content but not its stored `updatedAt`. -/
theorem C3_monotonic_convergence_amended (uid freshId : String) (prep : String → String)
    (fullOk minOk updOk : String → Bool) (now : Int) (L : List Receipt) (cloud : CloudDB)
    (r : Receipt) (c : CloudReceipt) (hr : r ∈ L) (hid : ∀ r' ∈ L, r'.id ≠ "")
    (hnd : (L.map Receipt.id).Nodup) (hc : visibleSnapshot uid cloud r.id = some c)
    (hgt : c.updatedAt < r.updatedAt) (hok : updOk r.id = true) :
    (syncLocalReceipts uid freshId prep fullOk minOk updOk true true true now L cloud).cloud r.id
        = some (updateReceiptDoc uid now r) ∧
    updateReceiptDoc uid now r
        = convertDatesToFirestore (cleanReceiptForFirestore { r with updatedAt := now } uid) ∧
    (updateReceiptDoc uid now r).updatedAt = now ∧
    (syncLocalReceipts uid freshId prep fullOk minOk updOk true true true now L cloud).locals
        = L.map (stepLocal (visibleSnapshot uid cloud) now) ∧
    stepLocal (visibleSnapshot uid cloud) now r = { r with updatedAt := now } := by
  have hw : writeOf uid freshId prep fullOk minOk updOk now (visibleSnapshot uid cloud) r
      = some (r.id, updateReceiptDoc uid now r) := by
    unfold writeOf
    simp only [hc]
    rw [if_pos hgt, if_pos hok]
  refine ⟨?_, rfl, rfl, ?_, ?_⟩
  · rw [syncLocalReceipts_run,
      sync_foldl_cloud_at uid freshId prep fullOk minOk updOk now _ L _ r hr hid hnd, hw]
    simp [applyWrite, putDoc]
  · rw [syncLocalReceipts_run, sync_foldl_locals]
    simp
  · unfold stepLocal
    simp only [hc]
    rw [if_pos hgt]

/-- C3 witness: the local-newer branch evaluated on a concrete pass (local
`A @ 10`, remote `A @ 5`, clock 50). -/
theorem C3_monotonic_convergence_witness :
    (visibleSnapshot "u" (putDoc emptyCloud "A" (cloudDoc "A" 5)) (mkReceipt "A" 10).id
        = some (cloudDoc "A" 5)) ∧
    ((cloudDoc "A" 5).updatedAt < (mkReceipt "A" 10).updatedAt) ∧
    ((syncLocalReceipts "u" "f" idPrep allTrue allTrue allTrue true true true 50
        [mkReceipt "A" 10] (putDoc emptyCloud "A" (cloudDoc "A" 5))).cloud (mkReceipt "A" 10).id
          = some (updateReceiptDoc "u" 50 (mkReceipt "A" 10)) ∧
      updateReceiptDoc "u" 50 (mkReceipt "A" 10)
          = convertDatesToFirestore
              (cleanReceiptForFirestore { mkReceipt "A" 10 with updatedAt := 50 } "u") ∧
      (updateReceiptDoc "u" 50 (mkReceipt "A" 10)).updatedAt = 50 ∧
      (syncLocalReceipts "u" "f" idPrep allTrue allTrue allTrue true true true 50
        [mkReceipt "A" 10] (putDoc emptyCloud "A" (cloudDoc "A" 5))).locals
          = [mkReceipt "A" 10].map
              (stepLocal (visibleSnapshot "u" (putDoc emptyCloud "A" (cloudDoc "A" 5))) 50) ∧
      stepLocal (visibleSnapshot "u" (putDoc emptyCloud "A" (cloudDoc "A" 5))) 50
          (mkReceipt "A" 10) = { mkReceipt "A" 10 with updatedAt := 50 }) :=
  ⟨by decide, by decide,
    C3_monotonic_convergence_amended "u" "f" idPrep allTrue allTrue allTrue 50
      [mkReceipt "A" 10] (putDoc emptyCloud "A" (cloudDoc "A" 5))
      (mkReceipt "A" 10) (cloudDoc "A" 5) (by decide) (by decide) (by decide)
      (by decide) (by decide) (by decide)⟩

/-- C7: for a signed-in delete of a receipt present in UI state whose local
delete succeeds, for every remote outcome: the local store and UI state drop
the receipt (never rolled back); the cloud entry is removed exactly on remote
success; on any remote failure the id is enqueued in the pending-deletion
queue; the warning fires exactly when the failure is not the detected
connectivity error (offline probe); and the enqueue is idempotent — an id
already queued is not duplicated. -/
theorem C7_delete_facade (localOk online deleteOk : Bool) (st : FacadeState) (id : String)
    (r0 : Receipt) (hfound : st.receipts.find? (fun r => r.id = id) = some r0)
    (hlocal : localOk = true) :
    (handleDeleteReceipt true localOk online deleteOk st id
      = { receipts := st.receipts.filter (fun r => r.id ≠ id)
          localStore := st.localStore.filter (fun r => r.id ≠ id)
          cloud := if online && deleteOk then removeDoc st.cloud id else st.cloud
          pending := if online && deleteOk then st.pending
            else enqueuePendingDeletion st.pending id
          warned := st.warned || (online && !deleteOk)
          errored := st.errored }) ∧
    (∀ q i, i ∈ q → enqueuePendingDeletion q i = q) := by
  subst hlocal
  constructor
  · unfold handleDeleteReceipt
    simp only [hfound]
    cases online <;> cases deleteOk <;>
      simp [firebaseDeleteReceipt]
  · intro q i hi
    have hc : q.contains i = true := by simpa using hi
    unfold enqueuePendingDeletion
    rw [if_pos hc]

/-- C7 witness: a concrete delete with the remote offline — the local copy and
UI entry are gone, the id is queued, and no warning is shown. -/
theorem C7_delete_facade_witness :
    ((FacadeState.mk [mkReceipt "A" 1] [mkReceipt "A" 1] emptyCloud [] false false).receipts.find?
        (fun r => r.id = "A") = some (mkReceipt "A" 1)) ∧
    ((handleDeleteReceipt true true false true
        (FacadeState.mk [mkReceipt "A" 1] [mkReceipt "A" 1] emptyCloud [] false false) "A"
      = { receipts := [mkReceipt "A" 1].filter (fun r => r.id ≠ "A")
          localStore := [mkReceipt "A" 1].filter (fun r => r.id ≠ "A")
          cloud := if false && true then removeDoc emptyCloud "A" else emptyCloud
          pending := if false && true then [] else enqueuePendingDeletion [] "A"
          warned := false || (false && !true)
          errored := false }) ∧
      (∀ q i, i ∈ q → enqueuePendingDeletion q i = q)) :=
  ⟨by decide,
    C7_delete_facade true false true
      (FacadeState.mk [mkReceipt "A" 1] [mkReceipt "A" 1] emptyCloud [] false false) "A"
      (mkReceipt "A" 1) (by decide) rfl⟩

theorem processPendingDeletions_eq (delOk : String → Bool) (pending : List String)
    (cloud : CloudDB) :
    processPendingDeletions true delOk pending cloud
      = (none, pending.filter (fun id => !(delOk id)), (drainLoop delOk pending cloud).2) := by
  simp only [processPendingDeletions]
  rw [if_neg (by decide : ¬ (true = false))]
  by_cases hp : pending.length = 0
  · rw [if_pos hp]
    have hnil : pending = [] := List.length_eq_zero.mp hp
    subst hnil
    simp [drainLoop]
  · rw [if_neg hp]
    rw [drainLoop_succ]
    by_cases hs : (pending.filter (fun id => delOk id)).length > 0
    · rw [if_pos hs]
      have hfc : pending.filter (fun id => !((pending.filter (fun i => delOk i)).contains id))
          = pending.filter (fun id => !(delOk id)) := by
        refine List.filter_congr ?_
        intro x hx
        by_cases hdx : delOk x = true <;> simp [hdx, List.mem_filter, hx]
      rw [hfc]
    · rw [if_neg hs]
      have hall : ∀ x ∈ pending, delOk x = false := by
        intro x hx
        cases hdx : delOk x with
        | false => rfl
        | true =>
            have hmem : x ∈ pending.filter (fun id => delOk id) :=
              List.mem_filter.mpr ⟨hx, hdx⟩
            have hpos : 0 < (pending.filter (fun id => delOk id)).length :=
              List.length_pos.mpr (List.ne_nil_of_mem hmem)
            exact absurd hpos hs
      have hself : pending.filter (fun id => !(delOk id)) = pending := by
        rw [List.filter_eq_self]
        intro a ha
        simp [hall a ha]
      rw [hself]

/-- C8 (counterexample): `processPendingDeletions` returns `undefined` — its
returned value carries no succeeded/remaining counts (they are only written to
the console log). -/
theorem C8_drain_returns_no_counts_cex :
    (processPendingDeletions true allTrue ["a"] emptyCloud).1 = none := by
  decide

/-- C8 (amended): with a signed-in user, one drain attempts every queued
identifier once in order; identifiers whose remote delete succeeds are removed
from both the cloud and the queue, identifiers whose delete fails remain
queued, one failure does not stop the remaining attempts (the queue left
behind is exactly the failed identifiers, whatever the mix of outcomes), and
the counts are logged but not returned — the function's value is
`undefined`. -/
theorem C8_drain_amended (delOk : String → Bool) (pending : List String) (cloud : CloudDB) :
    (processPendingDeletions true delOk pending cloud).1 = none ∧
    (processPendingDeletions true delOk pending cloud).2.1
        = pending.filter (fun id => !(delOk id)) ∧
    (∀ id ∈ pending, delOk id = true →
        (processPendingDeletions true delOk pending cloud).2.2 id = none) ∧
    (∀ id ∈ pending, delOk id = false →
        id ∈ (processPendingDeletions true delOk pending cloud).2.1) := by
  rw [processPendingDeletions_eq]
  refine ⟨rfl, rfl, ?_, ?_⟩
  · intro id hid hdel
    exact drainLoop_removes delOk pending cloud id hid hdel
  · intro id hid hdel
    exact List.mem_filter.mpr ⟨hid, by simp [hdel]⟩

/-- C8 witness: draining a concrete queue where `"a"` succeeds and `"b"`
fails removes `"a"` remotely and leaves exactly `["b"]` queued. -/
theorem C8_drain_amended_witness :
    ("a" ∈ ["a", "b"] ∧ (fun i => i == "a") "a" = true ∧ (fun i => i == "a") "b" = false) ∧
    ((processPendingDeletions true (fun i => i == "a") ["a", "b"] emptyCloud).2.2 "a" = none ∧
      "b" ∈ (processPendingDeletions true (fun i => i == "a") ["a", "b"] emptyCloud).2.1) :=
  ⟨by decide,
    (C8_drain_amended (fun i => i == "a") ["a", "b"] emptyCloud).2.2.1 "a" (by decide) (by decide),
    (C8_drain_amended (fun i => i == "a") ["a", "b"] emptyCloud).2.2.2 "b" (by decide) (by decide)⟩

theorem visibleSnapshot_apply (uid : String) (m : CloudDB) (k : String) :
    visibleSnapshot uid m k
      = (match m k with
         | some d => if d.userId = uid then some d else none
         | none => none) := rfl

/-- After one all-success pass, the caller-visible cloud entry at a local
record's id: a new record's full upload (carrying the record's own
`updatedAt`), an updated record's restamped document, or the untouched prior
entry. -/
theorem snapshot_after_pass_at (uid freshId : String) (prep : String → String) (now1 : Int)
    (L : List Receipt) (cloud : CloudDB) (r : Receipt) (hr : r ∈ L)
    (hid : ∀ r' ∈ L, r'.id ≠ "") (hnd : (L.map Receipt.id).Nodup) :
    visibleSnapshot uid
        (syncLocalReceipts uid freshId prep allTrue allTrue allTrue true true true now1 L
          cloud).cloud r.id
      = (match visibleSnapshot uid cloud r.id with
         | none => some (saveReceiptKV uid freshId prep (cleanedForSync r)).2
         | some c =>
             if c.updatedAt < r.updatedAt then some (updateReceiptDoc uid now1 r)
             else some c) := by
  have hrc : (syncLocalReceipts uid freshId prep allTrue allTrue allTrue true true true now1 L
        cloud).cloud r.id
      = applyWrite
          (writeOf uid freshId prep allTrue allTrue allTrue now1 (visibleSnapshot uid cloud) r)
          cloud r.id := by
    rw [syncLocalReceipts_run]
    exact sync_foldl_cloud_at uid freshId prep allTrue allTrue allTrue now1 _ L _ r hr hid hnd
  rw [visibleSnapshot_apply, hrc]
  cases hS : visibleSnapshot uid cloud r.id with
  | none =>
      have hw : writeOf uid freshId prep allTrue allTrue allTrue now1 (visibleSnapshot uid cloud) r
          = some (saveReceiptKV uid freshId prep (cleanedForSync r)) := by
        simp [writeOf, hS, allTrue]
      rw [hw]
      have hkey : (saveReceiptKV uid freshId prep (cleanedForSync r)).1 = r.id := by
        simp [saveReceiptKV, cleanedForSync, hid r hr]
      simp [applyWrite, putDoc, hkey, saveReceiptKV_doc_userId]
  | some c =>
      by_cases hlt : c.updatedAt < r.updatedAt
      · have hw : writeOf uid freshId prep allTrue allTrue allTrue now1 (visibleSnapshot uid cloud) r
            = some (r.id, updateReceiptDoc uid now1 r) := by
          simp [writeOf, hS, allTrue, hlt]
        rw [hw]
        simp [applyWrite, putDoc, updateReceiptDoc_userId, hlt]
      · have hw : writeOf uid freshId prep allTrue allTrue allTrue now1 (visibleSnapshot uid cloud) r
            = none := by
          simp [writeOf, hS, hlt]
        rw [hw]
        obtain ⟨hcl, hus⟩ := visibleSnapshot_some uid cloud r.id c hS
        simp [applyWrite, hcl, hus, hlt]

/-- C2 (amended): with every remote write succeeding, a second pass run
immediately after a first pass (same in-memory local array, as the pass left
it) adds nothing and updates nothing, but re-counts every conflicted record:
its counts are `{added: 0, updated: 0, conflicts: first run's conflicts}` —
the conflict branch writes nothing, so conflicts recur instead of going to
zero. -/
theorem C2_idempotence_amended (uid freshId : String) (prep : String → String)
    (now1 now2 : Int) (L : List Receipt) (cloud : CloudDB)
    (hid : ∀ r ∈ L, r.id ≠ "") (hnd : (L.map Receipt.id).Nodup) :
    (syncLocalReceipts uid freshId prep allTrue allTrue allTrue true true true now2
        (syncLocalReceipts uid freshId prep allTrue allTrue allTrue true true true now1 L
          cloud).locals
        (syncLocalReceipts uid freshId prep allTrue allTrue allTrue true true true now1 L
          cloud).cloud).counts
      = ⟨0, 0,
          (syncLocalReceipts uid freshId prep allTrue allTrue allTrue true true true now1 L
            cloud).counts.conflicts⟩ := by
  have hlocals : (syncLocalReceipts uid freshId prep allTrue allTrue allTrue true true true now1 L
      cloud).locals = L.map (stepLocal (visibleSnapshot uid cloud) now1) := by
    rw [syncLocalReceipts_run, sync_foldl_locals]
    simp
  have hconf1 : (syncLocalReceipts uid freshId prep allTrue allTrue allTrue true true true now1 L
      cloud).counts.conflicts = L.countP (countsConflict (visibleSnapshot uid cloud)) := by
    rw [syncLocalReceipts_run, sync_foldl_counts]
    simp
  rw [syncLocalReceipts_run, sync_foldl_counts, hlocals, hconf1]
  simp only [SyncCounts.mk.injEq, Nat.zero_add, List.countP_map]
  refine ⟨?_, ?_, ?_⟩
  · refine List.countP_eq_zero.mpr ?_
    intro r hr
    simp [Function.comp, countsAdded, allTrue]
  · refine List.countP_eq_zero.mpr ?_
    intro r hr
    have hsnap := snapshot_after_pass_at uid freshId prep now1 L cloud r hr hid hnd
    simp only [Function.comp]
    cases hS : visibleSnapshot uid cloud r.id with
    | none =>
        simp only [hS] at hsnap
        have hstep : stepLocal (visibleSnapshot uid cloud) now1 r = r := by
          unfold stepLocal
          simp only [hS]
        rw [hstep]
        unfold countsUpdated
        rw [hsnap]
        have hupd : ((saveReceiptKV uid freshId prep (cleanedForSync r)).2).updatedAt
            = r.updatedAt := by
          rw [saveReceiptKV_doc_updatedAt, cleanedForSync_updatedAt]
        simp [hupd]
    | some c =>
        simp only [hS] at hsnap
        by_cases hlt : c.updatedAt < r.updatedAt
        · rw [if_pos hlt] at hsnap
          have hstep : stepLocal (visibleSnapshot uid cloud) now1 r
              = { r with updatedAt := now1 } := by
            unfold stepLocal
            simp only [hS]
            rw [if_pos hlt]
          rw [hstep]
          unfold countsUpdated
          have hid' : ({ r with updatedAt := now1 } : Receipt).id = r.id := rfl
          rw [hid', hsnap]
          simp [updateReceiptDoc_updatedAt]
        · rw [if_neg hlt] at hsnap
          have hstep : stepLocal (visibleSnapshot uid cloud) now1 r = r := by
            unfold stepLocal
            simp only [hS]
            rw [if_neg hlt]
          rw [hstep]
          unfold countsUpdated
          rw [hsnap]
          simp [hlt]
  · refine List.countP_congr ?_
    intro r hr
    have hsnap := snapshot_after_pass_at uid freshId prep now1 L cloud r hr hid hnd
    simp only [Function.comp]
    cases hS : visibleSnapshot uid cloud r.id with
    | none =>
        simp only [hS] at hsnap
        have hstep : stepLocal (visibleSnapshot uid cloud) now1 r = r := by
          unfold stepLocal
          simp only [hS]
        rw [hstep]
        unfold countsConflict
        rw [hsnap, hS]
        have hupd : ((saveReceiptKV uid freshId prep (cleanedForSync r)).2).updatedAt
            = r.updatedAt := by
          rw [saveReceiptKV_doc_updatedAt, cleanedForSync_updatedAt]
        simp [hupd]
    | some c =>
        simp only [hS] at hsnap
        by_cases hlt : c.updatedAt < r.updatedAt
        · rw [if_pos hlt] at hsnap
          have hstep : stepLocal (visibleSnapshot uid cloud) now1 r
              = { r with updatedAt := now1 } := by
            unfold stepLocal
            simp only [hS]
            rw [if_pos hlt]
          rw [hstep]
          unfold countsConflict
          have hid' : ({ r with updatedAt := now1 } : Receipt).id = r.id := rfl
          rw [hid', hsnap, hS]
          have hnotlt : ¬ r.updatedAt < c.updatedAt := by omega
          simp [updateReceiptDoc_updatedAt, hnotlt]
        · rw [if_neg hlt] at hsnap
          have hstep : stepLocal (visibleSnapshot uid cloud) now1 r = r := by
            unfold stepLocal
            simp only [hS]
            rw [if_neg hlt]
          rw [hstep]
          unfold countsConflict
          rw [hsnap, hS]

/-- C2 witness: a two-record scenario (one update, one conflict) where the
second pass reports `{added: 0, updated: 0, conflicts: 1}` — the first run's
conflict count. -/
theorem C2_idempotence_amended_witness :
    ((∀ r ∈ [mkReceipt "A" 10, mkReceipt "B" 1], r.id ≠ "") ∧
      (([mkReceipt "A" 10, mkReceipt "B" 1].map Receipt.id).Nodup)) ∧
    (syncLocalReceipts "u" "f" idPrep allTrue allTrue allTrue true true true 60
        (syncLocalReceipts "u" "f" idPrep allTrue allTrue allTrue true true true 50
          [mkReceipt "A" 10, mkReceipt "B" 1]
          (putDoc (putDoc emptyCloud "A" (cloudDoc "A" 5)) "B" (cloudDoc "B" 5))).locals
        (syncLocalReceipts "u" "f" idPrep allTrue allTrue allTrue true true true 50
          [mkReceipt "A" 10, mkReceipt "B" 1]
          (putDoc (putDoc emptyCloud "A" (cloudDoc "A" 5)) "B" (cloudDoc "B" 5))).cloud).counts
      = ⟨0, 0,
          (syncLocalReceipts "u" "f" idPrep allTrue allTrue allTrue true true true 50
            [mkReceipt "A" 10, mkReceipt "B" 1]
            (putDoc (putDoc emptyCloud "A" (cloudDoc "A" 5)) "B" (cloudDoc "B" 5))).counts.conflicts⟩ :=
  ⟨⟨by decide, by decide⟩,
    C2_idempotence_amended "u" "f" idPrep 50 60 [mkReceipt "A" 10, mkReceipt "B" 1]
      (putDoc (putDoc emptyCloud "A" (cloudDoc "A" 5)) "B" (cloudDoc "B" 5))
      (by decide) (by decide)⟩
